import Mathlib

/-!
# Verification of the PolishedWorld survival-simulation core

Shallow embedding of the periodic-simulation functions of the PolishedWorld
MUD (environmental effects, weather generation, resource regeneration and
extraction, cooldowns, food decay, steam-engine fuel), translated from
`src/world/scripts.py`, `src/typeclasses/rooms.py` and
`src/typeclasses/characters.py`, together with theorems settling the
specification claims about them.

Python machine floats are embedded as exact rationals (`ℚ`); Python's
truncating `int()` conversion is embedded as `pyInt`.
-/

namespace PolishedWorld

/-- Python `int()` applied to an exact rational: truncation toward zero. -/
def pyInt (q : ℚ) : Int := if 0 ≤ q then ⌊q⌋ else -⌊-q⌋

theorem pyInt_of_nonneg {q : ℚ} (h : 0 ≤ q) : pyInt q = ⌊q⌋ := if_pos h

/-! ## Environmental effects (`world/scripts.py`, `get_environmental_effects`)

The effects dictionary built by `get_environmental_effects`: three rate
modifiers (initialised to `1.0`), an integer health drain (initialised to
`0`) and a list of player messages. -/

structure Effects where
  hunger_rate_mod : ℚ
  thirst_rate_mod : ℚ
  fatigue_rate_mod : ℚ
  health_drain : Int
  messages : List String
deriving Repr, DecidableEq

/-- The initial effects dict of `get_environmental_effects` (all defaults). -/
def initialEffects : Effects :=
  { hunger_rate_mod := 1, thirst_rate_mod := 1, fatigue_rate_mod := 1,
    health_drain := 0, messages := [] }

/-- The `protection` dict built from worn clothing:
`{"rain": False, "wind": False, "snow": False}` plus the
`weather_protection` tags of worn items. -/
structure Protection where
  rain : Bool
  wind : Bool
  snow : Bool
deriving Repr, DecidableEq

/-- The inputs `get_environmental_effects` draws from the character and its
location.  `indoor` is the location's `db.indoor` flag; the function body in
`world/scripts.py` never reads it. -/
structure EnvInput where
  indoor : Bool
  season : String
  time_of_day : String
  weather : List String
  warmth : Int
  protection : Protection
deriving Repr, DecidableEq

/-- `settings.SEASONS`: month lists per season, in dict order. -/
def SEASONS : List (String × List Nat) :=
  [("winter", [11, 0, 1, 2]), ("spring", [3, 4, 5]),
   ("summer", [6, 7, 8]), ("autumn", [9, 10])]

/-- Season lookup loop of `get_environmental_effects` (first season whose
month list contains the month, else `"unknown"`). -/
def seasonOfMonth (month : Nat) : String :=
  match SEASONS.find? (fun p => p.2.contains month) with
  | some p => p.1
  | none => "unknown"

/-- `settings.TIME_OF_DAY`: `(start, end)` hour ranges, in dict order. -/
def TIME_OF_DAY : List (String × Nat × Nat) :=
  [("dawn", 5, 7), ("morning", 7, 12), ("noon", 12, 14), ("afternoon", 14, 17),
   ("dusk", 17, 19), ("evening", 19, 22), ("night", 22, 5)]

/-- Time-of-day lookup loop of `get_environmental_effects`: first period with
`start <= hour < end or (start > end and (hour >= start or hour < end))`,
defaulting to `"night"`. -/
def timeOfDayOfHour (hour : Nat) : String :=
  match TIME_OF_DAY.find?
      (fun p => decide ((p.2.1 ≤ hour ∧ hour < p.2.2) ∨
        (p.2.2 < p.2.1 ∧ (p.2.1 ≤ hour ∨ hour < p.2.2)))) with
  | some p => p.1
  | none => "night"

/-- Cold/heat block of `get_environmental_effects` (the `if`/`elif` on
season and time of day, lines 134-164 of `world/scripts.py`). -/
def applyColdHeat (season tod : String) (warmth : Int) (e : Effects) : Effects :=
  if season = "winter" ∨ ((tod = "night" ∨ tod = "evening") ∧ season = "autumn") then
    let base_cold : Int := if season = "winter" then 20 else 10
    let base_cold := if tod = "night" then base_cold + 10 else base_cold
    let warmth_deficit := base_cold - warmth
    if 15 < warmth_deficit then
      { e with fatigue_rate_mod := e.fatigue_rate_mod * 2,
               health_drain := 2,
               messages := e.messages ++ ["|rYou are freezing!|n"] }
    else if 5 < warmth_deficit then
      { e with fatigue_rate_mod := e.fatigue_rate_mod * (3/2),
               health_drain := 1,
               messages := e.messages ++ ["|yYou are very cold.|n"] }
    else if 0 < warmth_deficit then
      { e with fatigue_rate_mod := e.fatigue_rate_mod * (6/5),
               messages := e.messages ++ ["|yYou feel chilly.|n"] }
    else e
  else if season = "summer" ∧ (tod = "noon" ∨ tod = "afternoon") then
    if 30 < warmth then
      { e with thirst_rate_mod := e.thirst_rate_mod * 2,
               fatigue_rate_mod := e.fatigue_rate_mod * (3/2),
               messages := e.messages ++ ["|rYou are overheating!|n"] }
    else if 20 < warmth then
      { e with thirst_rate_mod := e.thirst_rate_mod * (3/2),
               fatigue_rate_mod := e.fatigue_rate_mod * (6/5),
               messages := e.messages ++ ["|yThe heat is making you sweat.|n"] }
    else e
  else e

/-- Rain/storm block of `get_environmental_effects` (lines 167-174). -/
def applyPrecipitation (season : String) (weather : List String)
    (prot : Protection) (e : Effects) : Effects :=
  if (weather.contains "rain" || weather.contains "storm") && !prot.rain then
    let e := { e with fatigue_rate_mod := e.fatigue_rate_mod * (13/10) }
    if season = "winter" then
      { e with health_drain := e.health_drain + 1,
               messages := e.messages ++ ["|bThe cold rain chills you to the bone.|n"] }
    else
      { e with messages := e.messages ++ ["|yYou are getting soaked.|n"] }
  else e

/-- Snow block of `get_environmental_effects` (lines 176-179). -/
def applySnowWx (weather : List String) (prot : Protection) (e : Effects) : Effects :=
  if weather.contains "snow" && !prot.snow then
    { e with fatigue_rate_mod := e.fatigue_rate_mod * (7/5),
             messages := e.messages ++ ["|wSnow clings to your clothes.|n"] }
  else e

/-- Wind block of `get_environmental_effects` (lines 181-185): the `1.2`
multiplier is guarded only by wind exposure; the message is winter-only. -/
def applyWind (season : String) (weather : List String)
    (prot : Protection) (e : Effects) : Effects :=
  if (weather.contains "wind" || weather.contains "storm") && !prot.wind then
    let e := { e with fatigue_rate_mod := e.fatigue_rate_mod * (6/5) }
    if season = "winter" then
      { e with messages := e.messages ++ ["|cThe wind cuts through you.|n"] }
    else e
  else e

/-- `get_environmental_effects` (`world/scripts.py` lines 73-187): the four
effect blocks applied in source order to the initial effects dict.  The
body never consults `inp.indoor`. -/
def get_environmental_effects (inp : EnvInput) : Effects :=
  applyWind inp.season inp.weather inp.protection
    (applySnowWx inp.weather inp.protection
      (applyPrecipitation inp.season inp.weather inp.protection
        (applyColdHeat inp.season inp.time_of_day inp.warmth initialEffects)))

/-! ### Claims C1-C3 -/

/-- C1: the claim says an indoor room short-circuits
`get_environmental_effects` to the all-default output with no messages.
The code never reads the indoor flag: a character in an indoor room in
winter (month 0) at night (hour 2) under `storm` weather with warmth 0
receives fatigue modifier `2.0 * 1.3 * 1.2 = 78/25`, health drain `3` and
three messages — not the defaults. -/
theorem c1_indoor_room_not_shortcircuited :
    get_environmental_effects
        { indoor := true, season := seasonOfMonth 0,
          time_of_day := timeOfDayOfHour 2, weather := ["storm"],
          warmth := 0, protection := ⟨false, false, false⟩ }
        ≠ initialEffects ∧
    (get_environmental_effects
        { indoor := true, season := seasonOfMonth 0,
          time_of_day := timeOfDayOfHour 2, weather := ["storm"],
          warmth := 0, protection := ⟨false, false, false⟩ }).fatigue_rate_mod
        = 78/25 ∧
    (get_environmental_effects
        { indoor := true, season := seasonOfMonth 0,
          time_of_day := timeOfDayOfHour 2, weather := ["storm"],
          warmth := 0, protection := ⟨false, false, false⟩ }).health_drain = 3 ∧
    (get_environmental_effects
        { indoor := true, season := seasonOfMonth 0,
          time_of_day := timeOfDayOfHour 2, weather := ["storm"],
          warmth := 0, protection := ⟨false, false, false⟩ }).messages ≠ [] := by
  refine ⟨?_, ?_, ?_, ?_⟩ <;>
    simp +decide [get_environmental_effects, applyWind, applySnowWx,
      applyPrecipitation, applyColdHeat, initialEffects, Effects.mk.injEq,
      seasonOfMonth, timeOfDayOfHour, SEASONS, TIME_OF_DAY] <;>
    norm_num

/-- C2 counterexample: in winter at night with weather `{snow, wind}`,
warmth 0 and no protection, the fatigue rate modifier is not `2.0`: the
cold, snow and wind multipliers stack to `2.0 * 1.4 * 1.2 = 84/25`. -/
theorem c2_fatigue_mod_ne_two :
    (get_environmental_effects
        { indoor := false, season := "winter", time_of_day := "night",
          weather := ["snow", "wind"], warmth := 0,
          protection := ⟨false, false, false⟩ }).fatigue_rate_mod ≠ 2 := by
  simp +decide [get_environmental_effects, applyWind, applySnowWx,
    applyPrecipitation, applyColdHeat, initialEffects]
  norm_num

/-- C2 (amended): winter, night, weather `{snow, wind}`, warmth 0, no
protection gives fatigue rate modifier `84/25 = 3.36` (the stacked
`2.0 * 1.4 * 1.2`), health drain at least 2, and a "freezing" message. -/
theorem c2_winter_night_snow_wind :
    (get_environmental_effects
        { indoor := false, season := "winter", time_of_day := "night",
          weather := ["snow", "wind"], warmth := 0,
          protection := ⟨false, false, false⟩ }).fatigue_rate_mod = 84/25 ∧
    2 ≤ (get_environmental_effects
        { indoor := false, season := "winter", time_of_day := "night",
          weather := ["snow", "wind"], warmth := 0,
          protection := ⟨false, false, false⟩ }).health_drain ∧
    "|rYou are freezing!|n" ∈ (get_environmental_effects
        { indoor := false, season := "winter", time_of_day := "night",
          weather := ["snow", "wind"], warmth := 0,
          protection := ⟨false, false, false⟩ }).messages := by
  refine ⟨?_, ?_, ?_⟩ <;>
    simp +decide [get_environmental_effects, applyWind, applySnowWx,
      applyPrecipitation, applyColdHeat, initialEffects] <;>
    norm_num

/-- C3 counterexample: the claim says wind exposure changes the fatigue
modifier only in winter.  In summer at noon with weather `{wind}`, warmth 0
and no protection, the fatigue modifier is `6/5`, not the unchanged `1`. -/
theorem c3_wind_penalty_in_summer :
    (get_environmental_effects
        { indoor := false, season := "summer", time_of_day := "noon",
          weather := ["wind"], warmth := 0,
          protection := ⟨false, false, false⟩ }).fatigue_rate_mod ≠ 1 := by
  simp +decide [get_environmental_effects, applyWind, applySnowWx,
    applyPrecipitation, applyColdHeat, initialEffects]
  norm_num

/-- C3 (amended): wind exposure (weather contains "wind" or "storm" and no
wind protection) multiplies the fatigue rate modifier by `1.2` in *every*
season — relative to the same character with wind protection — and only the
"wind cuts through" message is winter-only. -/
theorem c3_wind_penalty_every_season (inp : EnvInput)
    (hw : inp.weather.contains "wind" = true ∨ inp.weather.contains "storm" = true)
    (hp : inp.protection.wind = false) :
    (get_environmental_effects inp).fatigue_rate_mod =
      (6/5) * (get_environmental_effects
        { inp with protection := { inp.protection with wind := true } }).fatigue_rate_mod ∧
    (get_environmental_effects inp).messages =
      (get_environmental_effects
        { inp with protection := { inp.protection with wind := true } }).messages ++
        (if inp.season = "winter" then ["|cThe wind cuts through you.|n"] else []) := by
  obtain ⟨indoor, season, tod, weather, warmth, pr, pw, ps⟩ := inp
  simp only at hp
  subst hp
  have hcond : (weather.contains "wind" || weather.contains "storm") = true := by
    rcases hw with h | h <;> simp_all
  simp only [get_environmental_effects, applyWind]
  set e := applySnowWx weather ⟨pr, false, ps⟩
      (applyPrecipitation season weather ⟨pr, false, ps⟩
        (applyColdHeat season tod warmth initialEffects)) with he
  have he' : applySnowWx weather ⟨pr, true, ps⟩
      (applyPrecipitation season weather ⟨pr, true, ps⟩
        (applyColdHeat season tod warmth initialEffects)) = e := by
    rw [he]
    simp only [applySnowWx, applyPrecipitation]
  rw [he']
  simp only [hcond, Bool.not_false, Bool.and_true, Bool.not_true, Bool.and_false,
    if_true, if_false, Bool.true_and, Bool.false_and]
  by_cases hs : season = "winter"
  · simp [hs, mul_comm]
  · simp [hs, mul_comm]

/-- Witness for `c3_wind_penalty_every_season` at a concrete non-winter
input: summer noon, weather `["wind"]`, warmth 0, no protection. -/
theorem c3_wind_penalty_every_season_witness :
    (get_environmental_effects
        { indoor := false, season := "summer", time_of_day := "noon",
          weather := ["wind"], warmth := 0,
          protection := ⟨false, false, false⟩ }).fatigue_rate_mod =
      (6/5) * (get_environmental_effects
        { indoor := false, season := "summer", time_of_day := "noon",
          weather := ["wind"], warmth := 0,
          protection := ⟨false, true, false⟩ }).fatigue_rate_mod :=
  (c3_wind_penalty_every_season
    { indoor := false, season := "summer", time_of_day := "noon",
      weather := ["wind"], warmth := 0, protection := ⟨false, false, false⟩ }
    (Or.inl (by decide)) rfl).1

/-! ## Resource nodes

`regenerate_resources` (`world/scripts.py` lines 360-401) works on the
`room.db.resource_nodes` dicts with keys `max_amount` (default 5),
`current_amount` (default 0) and `regen_rate` (default 1);
`Room.extract_resource` and `Room.get_resource_availability`
(`typeclasses/rooms.py`) work on the `room.db.resources` dicts. -/

structure ResourceNodeTick where
  max_amount : Int
  current_amount : Int
  regen_rate : Int
deriving Repr, DecidableEq

/-- The per-node body of `regenerate_resources`: if `current < max`, set
`current = min(current + regen_rate, max)`.  There is no guard for
`current == -1`. -/
def regenerateNode (n : ResourceNodeTick) : ResourceNodeTick :=
  if n.current_amount < n.max_amount then
    { n with current_amount := min (n.current_amount + n.regen_rate) n.max_amount }
  else n

/-- A `room.db.resources` entry as read by `Room.extract_resource` and
`Room.get_resource_availability`. -/
structure Resource where
  current : Int
  skill_required : Option String
  min_skill : Int
  tool_required : Option String
  seasonal_modifier : List (String × ℚ)
deriving Repr, DecidableEq

/-- `seasonal_mods.get(season, 1.0)`. -/
def seasonalGet (mods : List (String × ℚ)) (season : String) : ℚ :=
  match mods.find? (fun p => p.1 == season) with
  | some p => p.2
  | none => 1

/-- `Room.get_resource_availability` (`typeclasses/rooms.py` lines 252-284):
seasonal modifier, then storm/snow (`*0.5`) or rain (`*0.8`) penalty, then
the water special case (`*2.0` under rain/snow). -/
def get_resource_availability (resource_type : String) (resource : Resource)
    (season : String) (weather : List String) : ℚ :=
  let base_modifier : ℚ := 1 * seasonalGet resource.seasonal_modifier season
  let base_modifier :=
    if weather.contains "storm" || weather.contains "snow" then base_modifier * (1/2)
    else if weather.contains "rain" then base_modifier * (4/5)
    else base_modifier
  if resource_type = "water" ∧ (weather.contains "rain" || weather.contains "snow") = true then
    base_modifier * 2
  else base_modifier

/-- Result of `Room.extract_resource` together with the updated node
(`resource["current"]` is mutated in place in the source). -/
structure ExtractResult where
  success : Bool
  amount : Int
  skill_gain : Int
  node : Resource
deriving Repr, DecidableEq

/-- `Room.extract_resource` (`typeclasses/rooms.py` lines 406-469):
depletion, skill and tool gates, then
`amount = max(1, int(min(requested, current) * availability * skill_bonus))`,
decrementing `current` (clamped at 0) only when it was positive. -/
def extract_resource (resource_type : String) (resource : Resource)
    (season : String) (weather : List String)
    (gatherer_skill : Int) (has_tool : Bool) (amount : Int) : ExtractResult :=
  let current := resource.current
  if current = 0 then ⟨false, 0, 0, resource⟩
  else if resource.skill_required.isSome ∧ gatherer_skill < resource.min_skill then
    ⟨false, 0, 0, resource⟩
  else if resource.tool_required.isSome ∧ ¬has_tool then ⟨false, 0, 0, resource⟩
  else
    let availability := get_resource_availability resource_type resource season weather
    let skill_bonus : ℚ :=
      if resource.skill_required.isSome then 1 + (gatherer_skill : ℚ) / 100 else 1
    let max_gather : Int := if 0 < current then min amount current else amount
    let actual_amount := max 1 (pyInt ((max_gather : ℚ) * availability * skill_bonus))
    let node :=
      if 0 < current then { resource with current := max 0 (current - actual_amount) }
      else resource
    let skill_gain : Int :=
      if resource.skill_required.isSome ∧ gatherer_skill < 100 then
        pyInt (1 + (resource.min_skill : ℚ) / 20)
      else 1
    ⟨true, actual_amount, skill_gain, node⟩

/-- The `wood` node from `Room.at_object_creation` (`typeclasses/rooms.py`). -/
def woodResource : Resource :=
  { current := 5, skill_required := some "foraging", min_skill := 0,
    tool_required := none,
    seasonal_modifier :=
      [("spring", 6/5), ("summer", 3/2), ("autumn", 13/10), ("winter", 1/2)] }

/-- The `water` node from `Room.at_object_creation`: unlimited
(`current = -1`), requires a container. -/
def waterResource : Resource :=
  { current := -1, skill_required := none, min_skill := 0,
    tool_required := some "container",
    seasonal_modifier :=
      [("spring", 6/5), ("summer", 4/5), ("autumn", 1), ("winter", 3/2)] }

/-! ### Claims C4-C5 -/

/-- C4 counterexample: the regeneration tick has no guard for unlimited
nodes.  A node with `current_amount = -1`, `max_amount = 5`, `regen_rate = 1`
is mutated to `current_amount = 0`. -/
theorem c4_regen_mutates_unlimited_node :
    regenerateNode { max_amount := 5, current_amount := -1, regen_rate := 1 } ≠
      { max_amount := 5, current_amount := -1, regen_rate := 1 } ∧
    (regenerateNode { max_amount := 5, current_amount := -1, regen_rate := 1 }).current_amount
      = 0 := by
  decide

/-- C4 (amended): regeneration never raises `current` above `max`;
extraction never leaves a node with nonnegative `current` negative;
extraction never mutates an unlimited (`current = -1`) node; but
regeneration treats `current = -1` like any value below `max` and raises it
to `min(-1 + regen_rate, max)`. -/
theorem c4_node_invariants :
    (∀ n : ResourceNodeTick,
      (regenerateNode n).current_amount ≤ n.max_amount ∨ regenerateNode n = n) ∧
    (∀ (rt : String) (r : Resource) (season : String) (weather : List String)
        (skill : Int) (tool : Bool) (amt : Int), 0 ≤ r.current →
      0 ≤ (extract_resource rt r season weather skill tool amt).node.current) ∧
    (∀ (rt : String) (r : Resource) (season : String) (weather : List String)
        (skill : Int) (tool : Bool) (amt : Int), r.current = -1 →
      (extract_resource rt r season weather skill tool amt).node = r) ∧
    (∀ n : ResourceNodeTick, n.current_amount = -1 → -1 < n.max_amount →
      (regenerateNode n).current_amount = min (-1 + n.regen_rate) n.max_amount) := by
  refine ⟨?_, ?_, ?_, ?_⟩
  · intro n
    unfold regenerateNode
    split_ifs with h
    · left
      simpa using min_le_right _ _
    · right
      rfl
  · intro rt r season weather skill tool amt hr
    unfold extract_resource
    by_cases h1 : r.current = 0
    · simpa [h1] using hr
    by_cases h2 : r.skill_required.isSome = true ∧ skill < r.min_skill
    · simpa [h1, h2] using hr
    by_cases h3 : r.tool_required.isSome = true ∧ tool = false
    · simpa [h1, h2, h3] using hr
    by_cases hc : 0 < r.current
    · simp [h1, h2, h3, hc]
    · simpa [h1, h2, h3, hc] using hr
  · intro rt r season weather skill tool amt hr
    unfold extract_resource
    by_cases h2 : r.skill_required.isSome = true ∧ skill < r.min_skill
    · simp [hr, h2]
    by_cases h3 : r.tool_required.isSome = true ∧ tool = false
    · simp [hr, h2, h3]
    simp [hr, h2, h3]
  · intro n h1 h2
    unfold regenerateNode
    rw [if_pos (by omega)]
    simp [h1]

/-- Witness for `c4_node_invariants` at concrete nodes and extraction
inputs. -/
theorem c4_node_invariants_witness :
    ((regenerateNode { max_amount := 5, current_amount := 3, regen_rate := 4 }).current_amount ≤ 5 ∨
      regenerateNode { max_amount := 5, current_amount := 3, regen_rate := 4 } =
        { max_amount := 5, current_amount := 3, regen_rate := 4 }) ∧
    0 ≤ (extract_resource "wood" woodResource "summer" ["storm"] 0 true 3).node.current ∧
    (extract_resource "water" waterResource "winter" [] 0 true 2).node = waterResource ∧
    (regenerateNode { max_amount := 5, current_amount := -1, regen_rate := 2 }).current_amount
      = min (-1 + 2) 5 :=
  ⟨c4_node_invariants.1 _,
   c4_node_invariants.2.1 "wood" woodResource "summer" ["storm"] 0 true 3 (by decide),
   c4_node_invariants.2.2.1 "water" waterResource "winter" [] 0 true 2 rfl,
   c4_node_invariants.2.2.2 _ rfl (by decide)⟩

/-- C5: extracting from the wood node (`current=5`, summer modifier `1.5`)
under `{storm}` weather with requested amount 3 and skill 0 has availability
`1.5 * 0.5 = 0.75`, succeeds with amount `int(3 * 0.75 * 1.0) = 2`, and
leaves `current = 3`. -/
theorem c5_wood_extraction_scenario :
    get_resource_availability "wood" woodResource "summer" ["storm"] = 3/4 ∧
    (extract_resource "wood" woodResource "summer" ["storm"] 0 true 3).success = true ∧
    (extract_resource "wood" woodResource "summer" ["storm"] 0 true 3).amount = 2 ∧
    (extract_resource "wood" woodResource "summer" ["storm"] 0 true 3).node.current = 3 := by
  refine ⟨?_, ?_, ?_, ?_⟩ <;>
    simp +decide [get_resource_availability, extract_resource, seasonalGet,
      woodResource, pyInt, List.find?] <;>
    norm_num

/-! ## Cooldowns (`typeclasses/characters.py`) -/

/-- `Character.get_cooldown_modifier` (lines 191-226): linear skill-based
reduction `0.5 + 0.5 * (100 - skill_level) / 100`, as a function of the
governing skill's level. -/
def get_cooldown_modifier (skill_level : ℚ) : ℚ :=
  1/2 + 1/2 * (100 - skill_level) / 100

/-- The constitution factor of `Character.apply_cooldown`: for physical
actions (`gather`, `hunt`, `craft`) with constitution above 10, each point
above 10 gives 1% reduction, capped at 20%. -/
def stat_modifier (cooldown_name : String) (con_value : ℚ) : ℚ :=
  if cooldown_name ∈ ["gather", "hunt", "craft"] ∧ 10 < con_value then
    1 - min ((con_value - 10) * (1/100)) (1/5)
  else 1

/-- `Character.apply_cooldown` (lines 230-259): skill modifier, optional
constitution bonus, then `actual_duration = int(base_duration * modifier)`. -/
def apply_cooldown (cooldown_name : String) (base_duration : Int)
    (skill_level : ℚ) (con_value : ℚ) : Int :=
  let modifier := get_cooldown_modifier skill_level
  let modifier :=
    if cooldown_name ∈ ["gather", "hunt", "craft"] ∧ 10 < con_value then
      modifier * (1 - min ((con_value - 10) * (1/100)) (1/5))
    else modifier
  pyInt (base_duration * modifier)

/-! ### Claim C6 -/

/-- C6: the applied cooldown duration is
`⌊base * skillModifier * statModifier⌋` with
`skillModifier = 0.5 + 0.5 * (100 - skill) / 100`, and
`apply_cooldown "gather" 300` at skill 100 and constitution 10 gives 150. -/
theorem c6_cooldown_duration (name : String) (base : Int) (skill con : ℚ)
    (hbase : 0 ≤ base) (hskill : skill ≤ 100) :
    apply_cooldown name base skill con =
      ⌊(base : ℚ) * get_cooldown_modifier skill * stat_modifier name con⌋ ∧
    apply_cooldown "gather" 300 100 10 = 150 := by
  have hmod : 0 ≤ get_cooldown_modifier skill := by
    have h1 : (0 : ℚ) ≤ 100 - skill := by linarith
    have h2 : (0 : ℚ) ≤ 1/2 * (100 - skill) / 100 := by positivity
    unfold get_cooldown_modifier
    linarith
  have hbase' : (0 : ℚ) ≤ (base : ℚ) := by exact_mod_cast hbase
  constructor
  · unfold apply_cooldown stat_modifier
    split_ifs with h
    · have hstat : 0 ≤ 1 - min ((con - 10) * (1/100)) (1/5) := by
        have := min_le_right ((con - 10) * (1/100)) (1/5 : ℚ)
        linarith
      rw [pyInt_of_nonneg (by positivity), mul_assoc]
    · rw [pyInt_of_nonneg (by positivity), mul_one]
  · norm_num [apply_cooldown, get_cooldown_modifier, pyInt]

/-- Witness for `c6_cooldown_duration` at the Scenario D input. -/
theorem c6_cooldown_duration_witness :
    apply_cooldown "gather" 300 100 10 =
      ⌊(300 : ℚ) * get_cooldown_modifier 100 * stat_modifier "gather" 10⌋ ∧
    apply_cooldown "gather" 300 100 10 = 150 :=
  ⟨((c6_cooldown_duration "gather" 300 100 10 (by norm_num) (by norm_num)).1).trans
      (by norm_num),
   (c6_cooldown_duration "gather" 300 100 10 (by norm_num) (by norm_num)).2⟩

/-! ## Weather generation (`world/scripts.py`, `generate_weather_for_season`)

The two `random.random()` draws are explicit inputs: `roll` selects the base
category against the cumulative seasonal table, `u` decides the compound
upgrade. -/

/-- The cumulative-probability loop of `generate_weather_for_season`
(lines 297-306): running cumulative sum, first category with
`roll <= cumulative`, default `"clear"`. -/
def pickWeatherGo (roll : ℚ) : List (String × ℚ) → ℚ → String
  | [], _ => "clear"
  | (w, p) :: rest, cumulative =>
      if roll ≤ cumulative + p then w else pickWeatherGo roll rest (cumulative + p)

/-- Base-category selection of `generate_weather_for_season`. -/
def pickWeatherType (probs : List (String × ℚ)) (roll : ℚ) : String :=
  pickWeatherGo roll probs 0

/-- The compound-outcome expansion of `generate_weather_for_season`
(lines 308-332): the `if`/`elif` chain on the rolled category, with `u` the
upgrade roll (`random.random() < 0.3` resp. `< 0.5`). -/
def expandWeather (weather_type : String) (u : ℚ) : List String :=
  if weather_type = "clear" then ["clear"]
  else if weather_type = "cloudy" then ["cloudy"]
  else if weather_type = "rain" then
    (if u < 3/10 then ["rain", "storm", "wind"] else ["rain"])
  else if weather_type = "fog" then ["fog"]
  else if weather_type = "snow" then
    (if u < 1/2 then ["snow", "wind"] else ["snow"])
  else if weather_type = "storm" then ["rain", "storm", "wind"]
  else []

/-- `generate_weather_for_season`, with both RNG draws explicit. -/
def generate_weather_for_season (probs : List (String × ℚ)) (roll u : ℚ) :
    List String :=
  expandWeather (pickWeatherType probs roll) u

/-- `settings.SEASONAL_WEATHER["winter"]`. -/
def winterWeatherProbs : List (String × ℚ) :=
  [("clear", 1/5), ("cloudy", 3/10), ("snow", 3/10), ("fog", 1/10), ("storm", 1/10)]

/-- `settings.SEASONAL_WEATHER["spring"]`. -/
def springWeatherProbs : List (String × ℚ) :=
  [("clear", 2/5), ("cloudy", 3/10), ("rain", 1/5), ("fog", 1/20), ("storm", 1/20)]

/-! ### Claim C9 -/

/-- C9: weather expansion of the rolled base category: a `rain` roll
upgrades below the 0.3 threshold to `{rain, storm, wind}` and otherwise
yields `{rain}`; a `snow` roll upgrades below the 0.5 threshold to
`{snow, wind}` and otherwise `{snow}`; a directly rolled `storm` always
yields `{rain, storm, wind}`; `clear`, `cloudy` and `fog` yield their
singletons. -/
theorem c9_weather_expansion (probs : List (String × ℚ)) (roll u : ℚ) :
    (pickWeatherType probs roll = "rain" →
      generate_weather_for_season probs roll u =
        if u < 3/10 then ["rain", "storm", "wind"] else ["rain"]) ∧
    (pickWeatherType probs roll = "snow" →
      generate_weather_for_season probs roll u =
        if u < 1/2 then ["snow", "wind"] else ["snow"]) ∧
    (pickWeatherType probs roll = "storm" →
      generate_weather_for_season probs roll u = ["rain", "storm", "wind"]) ∧
    (∀ w, w ∈ ["clear", "cloudy", "fog"] → pickWeatherType probs roll = w →
      generate_weather_for_season probs roll u = [w]) := by
  refine ⟨?_, ?_, ?_, ?_⟩
  · intro h
    simp +decide [generate_weather_for_season, expandWeather, h]
  · intro h
    simp +decide [generate_weather_for_season, expandWeather, h]
  · intro h
    simp +decide [generate_weather_for_season, expandWeather, h]
  · intro w hw h
    simp only [List.mem_cons, List.mem_singleton, List.not_mem_nil, or_false] at hw
    rcases hw with hw | hw | hw <;> subst hw <;>
      simp +decide [generate_weather_for_season, expandWeather, h]

/-- Witness for `c9_weather_expansion`: concrete rolls against the winter
and spring tables from `settings.SEASONAL_WEATHER` hitting every branch. -/
theorem c9_weather_expansion_witness :
    generate_weather_for_season springWeatherProbs (3/4) (1/10) =
      (if (1/10 : ℚ) < 3/10 then ["rain", "storm", "wind"] else ["rain"]) ∧
    generate_weather_for_season winterWeatherProbs (3/5) (7/10) =
      (if (7/10 : ℚ) < 1/2 then ["snow", "wind"] else ["snow"]) ∧
    generate_weather_for_season winterWeatherProbs (19/20) 0 =
      ["rain", "storm", "wind"] ∧
    generate_weather_for_season winterWeatherProbs (1/10) 0 = ["clear"] := by
  refine ⟨?_, ?_, ?_, ?_⟩
  · exact (c9_weather_expansion springWeatherProbs (3/4) (1/10)).1
      (by norm_num [pickWeatherType, pickWeatherGo, springWeatherProbs])
  · exact (c9_weather_expansion winterWeatherProbs (3/5) (7/10)).2.1
      (by norm_num [pickWeatherType, pickWeatherGo, winterWeatherProbs])
  · exact (c9_weather_expansion winterWeatherProbs (19/20) 0).2.2.1
      (by norm_num [pickWeatherType, pickWeatherGo, winterWeatherProbs])
  · exact (c9_weather_expansion winterWeatherProbs (1/10) 0).2.2.2 "clear"
      (by decide) (by norm_num [pickWeatherType, pickWeatherGo, winterWeatherProbs])

/-! ## Steam engines (`world/scripts.py`, `update_steam_engines`) -/

structure SteamEngine where
  is_running : Bool
  fuel_amount : ℚ
  fuel_consumption_rate : ℚ
  fuel_capacity : ℚ
  max_pressure : ℚ
  current_pressure : Int
deriving Repr, DecidableEq

/-- The per-engine body of `update_steam_engines` (lines 615-643): engines
that are not running are skipped; a running engine with enough fuel pays
`fuel_consumption_rate` (falsy defaults to 1) and recomputes pressure;
otherwise it is stopped with pressure and fuel zeroed. -/
def update_steam_engine (e : SteamEngine) : SteamEngine :=
  if ¬ e.is_running then e
  else
    let fuel_consumed := if e.fuel_consumption_rate = 0 then 1 else e.fuel_consumption_rate
    let current_fuel := e.fuel_amount
    if fuel_consumed ≤ current_fuel then
      let new_fuel := current_fuel - fuel_consumed
      let max_pressure := if e.max_pressure = 0 then 100 else e.max_pressure
      let pressure_percent := if e.fuel_capacity = 0 then 0 else new_fuel / e.fuel_capacity
      { e with fuel_amount := new_fuel,
               current_pressure := pyInt (max_pressure * pressure_percent) }
    else
      { e with is_running := false, current_pressure := 0, fuel_amount := 0 }

/-! ### Claim C10 -/

/-- C10: after the fuel tick, every processed (running) engine has
`fuel_amount >= 0`; and a running engine whose fuel is below its consumption
rate ends the tick stopped, with `is_running = False`,
`current_pressure = 0` and `fuel_amount = 0`. -/
theorem c10_engine_fuel_invariants (e : SteamEngine) (hr : e.is_running = true) :
    0 ≤ (update_steam_engine e).fuel_amount ∧
    (e.fuel_amount < e.fuel_consumption_rate →
      (update_steam_engine e).is_running = false ∧
      (update_steam_engine e).current_pressure = 0 ∧
      (update_steam_engine e).fuel_amount = 0) := by
  unfold update_steam_engine
  rw [if_neg (by simp [hr])]
  constructor
  · by_cases hfc : (if e.fuel_consumption_rate = 0 then 1 else e.fuel_consumption_rate)
        ≤ e.fuel_amount
    · rw [if_pos hfc]
      show 0 ≤ e.fuel_amount - (if e.fuel_consumption_rate = 0 then 1 else e.fuel_consumption_rate)
      linarith
    · rw [if_neg hfc]
  · intro hfuel
    have hcond : ¬ ((if e.fuel_consumption_rate = 0 then 1 else e.fuel_consumption_rate)
        ≤ e.fuel_amount) := by
      split_ifs with h0
      · rw [h0] at hfuel
        linarith
      · linarith
    rw [if_neg hcond]
    exact ⟨rfl, rfl, rfl⟩

/-- Witness for `c10_engine_fuel_invariants`: a running engine with no fuel
and consumption rate 1 stops with everything zeroed. -/
theorem c10_engine_fuel_invariants_witness :
    0 ≤ (update_steam_engine ⟨true, 0, 1, 10, 100, 50⟩).fuel_amount ∧
    ((update_steam_engine ⟨true, 0, 1, 10, 100, 50⟩).is_running = false ∧
     (update_steam_engine ⟨true, 0, 1, 10, 100, 50⟩).current_pressure = 0 ∧
     (update_steam_engine ⟨true, 0, 1, 10, 100, 50⟩).fuel_amount = 0) :=
  ⟨(c10_engine_fuel_invariants ⟨true, 0, 1, 10, 100, 50⟩ rfl).1,
   (c10_engine_fuel_invariants ⟨true, 0, 1, 10, 100, 50⟩ rfl).2 (by norm_num)⟩

/-! ## Food decay (`world/scripts.py`, `check_food_spoilage`)

Each tick sets `freshness = max(0, freshness - decay_rate)` with
`decay_rate = item.db.decay_rate or 10`.  The state-change events form an
`if`/`elif`: the "beginning to spoil" branch fires when
`current_freshness > 50 and new_freshness <= 50`, and the terminal
"spoiled" tag-and-event fires only when that first branch did *not*, with
`current_freshness > 0 and new_freshness <= 0`. -/

/-- `item.db.decay_rate or 10`: a falsy stored rate defaults to 10. -/
def effDecayRate (decay_rate : ℚ) : ℚ := if decay_rate = 0 then 10 else decay_rate

/-- Freshness of an item after `n` spoilage ticks, starting from `f0`, with
no external change to freshness between ticks. -/
def freshnessAfter (decay_rate f0 : ℚ) : ℕ → ℚ
  | 0 => f0
  | n + 1 => max 0 (freshnessAfter decay_rate f0 n - effDecayRate decay_rate)

/-- The "beginning to spoil" branch (`check_food_spoilage` line 434) fires
on tick `n+1`: `current_freshness > 50 and new_freshness <= 50`. -/
def beginsSpoilAt (decay_rate f0 : ℚ) (n : ℕ) : Prop :=
  50 < freshnessAfter decay_rate f0 n ∧ freshnessAfter decay_rate f0 (n + 1) ≤ 50

instance (decay_rate f0 : ℚ) (n : ℕ) : Decidable (beginsSpoilAt decay_rate f0 n) :=
  inferInstanceAs (Decidable (_ ∧ _))

/-- The terminal "spoiled" tag-and-event (`check_food_spoilage` line 441)
fires on tick `n+1`: it is the `elif` arm, so it requires that the
"beginning to spoil" branch did not fire on the same tick, and
`current_freshness > 0 and new_freshness <= 0`. -/
def spoilsAt (decay_rate f0 : ℚ) (n : ℕ) : Prop :=
  ¬ beginsSpoilAt decay_rate f0 n ∧
  0 < freshnessAfter decay_rate f0 n ∧ freshnessAfter decay_rate f0 (n + 1) ≤ 0

instance (decay_rate f0 : ℚ) (n : ℕ) : Decidable (spoilsAt decay_rate f0 n) :=
  inferInstanceAs (Decidable (_ ∧ _))

/-- Freshness crosses from `> 0` to `<= 0` on tick `n+1` (the condition of
the spoiled `elif` arm taken on its own). -/
def crossesZeroAt (decay_rate f0 : ℚ) (n : ℕ) : Prop :=
  0 < freshnessAfter decay_rate f0 n ∧ freshnessAfter decay_rate f0 (n + 1) ≤ 0

/-- If freshness crosses zero at tick `m`, the decay rate is positive and
the new freshness is exactly 0. -/
theorem crossesZeroAt_rate_pos {decay_rate f0 : ℚ} {m : ℕ}
    (h : crossesZeroAt decay_rate f0 m) :
    0 < effDecayRate decay_rate ∧ freshnessAfter decay_rate f0 (m + 1) = 0 := by
  obtain ⟨h1, h2⟩ := h
  have hz : freshnessAfter decay_rate f0 (m + 1) = 0 :=
    le_antisymm h2 (le_max_left _ _)
  constructor
  · by_contra hneg
    push_neg at hneg
    have : 0 < freshnessAfter decay_rate f0 m - effDecayRate decay_rate := by linarith
    have : freshnessAfter decay_rate f0 (m + 1) > 0 := by
      unfold freshnessAfter
      exact lt_max_of_lt_right this
    linarith
  · exact hz

/-- With a nonnegative decay rate, freshness 0 is absorbing. -/
theorem freshnessAfter_zero_stays {decay_rate f0 : ℚ}
    (hrate : 0 ≤ effDecayRate decay_rate) {k : ℕ}
    (hk : freshnessAfter decay_rate f0 k = 0) :
    ∀ j, freshnessAfter decay_rate f0 (k + j) = 0 := by
  intro j
  induction j with
  | zero => exact hk
  | succ j ih =>
      show freshnessAfter decay_rate f0 ((k + j) + 1) = 0
      unfold freshnessAfter
      rw [ih]
      simp only [zero_sub, max_eq_left_iff]
      linarith

/-! ### Claim C7 -/

/-- C7 counterexample: the claim says the spoiled tag-and-event fires at
the tick on which freshness first crosses from `> 0` to `<= 0`.  With
freshness 60 and decay rate 60, the first tick crosses both the 50 and the
0 boundaries at once, so the "beginning to spoil" `if` branch fires and its
`elif` shadows the spoiled branch: freshness crosses zero at tick 0, yet
the spoiled event does not fire there. -/
theorem c7_simultaneous_crossing_shadows_spoiled :
    0 < freshnessAfter 60 60 0 ∧
    freshnessAfter 60 60 1 ≤ 0 ∧
    beginsSpoilAt 60 60 0 ∧
    ¬ spoilsAt 60 60 0 := by
  refine ⟨?_, ?_, ?_, ?_⟩ <;>
    norm_num [freshnessAfter, effDecayRate, beginsSpoilAt, spoilsAt]

/-- C7 (amended): freshness is never negative; the terminal "spoiled" event
fires at most once across any sequence of ticks; and when the effective
decay rate is positive there is a unique first tick on which freshness
crosses from `> 0` to `<= 0`, and the spoiled event fires at that tick if
and only if the freshness entering the tick is at most 50 — when that tick
also crosses the 50 boundary (entering freshness above 50), the "beginning
to spoil" branch shadows the `elif` and the spoiled event never fires at
all. -/
theorem c7_spoilage_one_shot (decay_rate f0 : ℚ) (hf : 0 < f0) :
    (∀ n, 0 ≤ freshnessAfter decay_rate f0 (n + 1)) ∧
    (∀ m n, spoilsAt decay_rate f0 m → spoilsAt decay_rate f0 n → m = n) ∧
    (0 < effDecayRate decay_rate →
      ∃ n, crossesZeroAt decay_rate f0 n ∧
        (∀ m, m < n → 0 < freshnessAfter decay_rate f0 (m + 1)) ∧
        (freshnessAfter decay_rate f0 n ≤ 50 → spoilsAt decay_rate f0 n) ∧
        (50 < freshnessAfter decay_rate f0 n →
          ∀ m, ¬ spoilsAt decay_rate f0 m)) := by
  have hcross_uniq : ∀ m n, crossesZeroAt decay_rate f0 m →
      crossesZeroAt decay_rate f0 n → m = n := by
    have key : ∀ m n, m < n → crossesZeroAt decay_rate f0 m →
        ¬ crossesZeroAt decay_rate f0 n := by
      intro m n hmn hm hn
      obtain ⟨hrate, hz⟩ := crossesZeroAt_rate_pos hm
      obtain ⟨j, hj⟩ : ∃ j, n = (m + 1) + j := ⟨n - (m + 1), by omega⟩
      have : freshnessAfter decay_rate f0 n = 0 := by
        rw [hj]
        exact freshnessAfter_zero_stays (le_of_lt hrate) hz j
      exact absurd hn.1 (by rw [this]; exact lt_irrefl 0)
    intro m n hm hn
    rcases lt_trichotomy m n with h | h | h
    · exact absurd hn (key m n h hm)
    · exact h
    · exact absurd hm (key n m h hn)
  refine ⟨fun n => le_max_left _ _, ?_, ?_⟩
  · intro m n hm hn
    exact hcross_uniq m n hm.2 hn.2
  intro hrate
  have hdesc : ∀ n : ℕ, freshnessAfter decay_rate f0 n =
      max 0 (f0 - n * effDecayRate decay_rate) := by
    intro n
    induction n with
    | zero => simp [freshnessAfter, le_of_lt hf]
    | succ n ih =>
        show freshnessAfter decay_rate f0 (n + 1) = _
        unfold freshnessAfter
        rw [ih]
        rcases le_or_lt (f0 - n * effDecayRate decay_rate) 0 with hle | hlt
        · rw [max_eq_left hle, max_eq_left (by linarith), max_eq_left (by push_cast; nlinarith)]
        · rw [max_eq_right (le_of_lt hlt)]
          push_cast
          ring_nf
  obtain ⟨N, hN⟩ := exists_nat_gt (f0 / effDecayRate decay_rate)
  have hNcross : freshnessAfter decay_rate f0 (N + 1) ≤ 0 := by
    rw [hdesc]
    have h1 : f0 < N * effDecayRate decay_rate := by
      rw [div_lt_iff hrate] at hN
      linarith
    have h2 : f0 - (N + 1 : ℕ) * effDecayRate decay_rate ≤ 0 := by
      push_cast
      nlinarith
    rw [max_eq_left h2]
  have hex : ∃ k, freshnessAfter decay_rate f0 (k + 1) ≤ 0 := ⟨N, hNcross⟩
  classical
  let n₀ := Nat.find hex
  have hn₀ : freshnessAfter decay_rate f0 (n₀ + 1) ≤ 0 := Nat.find_spec hex
  have hmin : ∀ m, m < n₀ → 0 < freshnessAfter decay_rate f0 (m + 1) := by
    intro m hm
    have := Nat.find_min hex hm
    push_neg at this
    exact this
  have hpos : 0 < freshnessAfter decay_rate f0 n₀ := by
    cases hn : n₀ with
    | zero => simpa [hn, freshnessAfter] using hf
    | succ k =>
        have := hmin k (by omega)
        simpa [hn] using this
  have hcross : crossesZeroAt decay_rate f0 n₀ := ⟨hpos, hn₀⟩
  refine ⟨n₀, hcross, hmin, ?_, ?_⟩
  · intro hle
    refine ⟨?_, hcross⟩
    intro hb
    exact absurd hb.1 (not_lt.mpr hle)
  · intro hgt m hm
    have hc : crossesZeroAt decay_rate f0 m := hm.2
    have heq := hcross_uniq m n₀ hc hcross
    subst heq
    have hz := (crossesZeroAt_rate_pos hcross).2
    exact hm.1 ⟨hgt, by rw [hz]; norm_num⟩

/-- Witness for `c7_spoilage_one_shot`: rate 10, initial freshness 100. -/
theorem c7_spoilage_one_shot_witness :
    ∃ n, crossesZeroAt 10 100 n ∧
      (∀ m, m < n → 0 < freshnessAfter 10 100 (m + 1)) ∧
      (freshnessAfter 10 100 n ≤ 50 → spoilsAt 10 100 n) ∧
      (50 < freshnessAfter 10 100 n → ∀ m, ¬ spoilsAt 10 100 m) :=
  (c7_spoilage_one_shot 10 100 (by norm_num)).2.2 (by norm_num [effDecayRate])

/-! ## Gauge traits

The gauge mechanics (`modify`, `applyRate`, `describe`) live in the external
Evennia traits contrib, not in this repository's source; they are modelled
from the spec (§4.1).  The gauge *configuration* — initial value, bounds,
rate and threshold table — is from `Character.at_object_creation` in
`typeclasses/characters.py`. -/

/-- Modelled from the spec: `GaugeTrait` of §4.1 (the `describe` threshold
table is kept separate as a list of `(upperBound, label)` pairs). -/
structure GaugeTrait where
  current : ℚ
  min : ℚ
  max : ℚ
  rate : ℚ
deriving Repr, DecidableEq

/-- Modelled from the spec: `modify(delta)` sets
`current = clamp(current + delta, min, max)`. -/
def GaugeTrait.modify (g : GaugeTrait) (delta : ℚ) : GaugeTrait :=
  { g with current := Max.max g.min (Min.min g.max (g.current + delta)) }

/-- Modelled from the spec: `applyRate(elapsedGameSeconds, rateModifier)`
is `modify(rate * rateModifier * elapsed / secondsPerRateUnit)`; one rate
unit is one game hour (3600 game seconds), per Scenario A. -/
def GaugeTrait.applyRate (g : GaugeTrait) (elapsedGameSeconds rateModifier : ℚ) :
    GaugeTrait :=
  g.modify (g.rate * rateModifier * elapsedGameSeconds / 3600)

/-- The hunger gauge configured at `Character.at_object_creation`:
`base=100, mod=0, min=0, rate=-2.0` (so `current = max = 100`). -/
def hungerGauge : GaugeTrait := { current := 100, min := 0, max := 100, rate := -2 }

/-- The hunger threshold table (`descs`) from `Character.at_object_creation`:
upper bounds 19/39/59/79/99/100. -/
def hungerDescs : List (Int × String) :=
  [(19, "starving"), (39, "very hungry"), (59, "hungry"),
   (79, "peckish"), (99, "satisfied"), (100, "full")]

/-- Modelled from the spec: `describe()` scans the threshold table in
ascending order of upper bound and returns the label of the first entry
whose upper bound is `>= current`. -/
def describeGauge (descs : List (Int × String)) (current : ℚ) : Option String :=
  match descs.find? (fun p => decide (current ≤ (p.1 : ℚ))) with
  | some p => some p.2
  | none => none

/-! ### Claim C8 -/

/-- C8 counterexample: the claim puts the "full"/"satisfied" transition at
the 95 boundary, but with the repository's threshold table (`99: satisfied`,
`100: full`) a hunger of 96 — above 95 — still describes as "satisfied",
not "full". -/
theorem c8_descriptor_not_full_at_96 :
    (95 : ℚ) ≤ 96 ∧
    describeGauge hungerDescs 96 = some "satisfied" ∧
    describeGauge hungerDescs 96 ≠ some "full" := by
  refine ⟨by norm_num, ?_, ?_⟩ <;>
    simp +decide [describeGauge, hungerDescs, List.find?]

/-- C8 (amended): three one-game-hour `applyRate` ticks of the hunger gauge
leave `current = 94`, and the descriptor transition from "full" to
"satisfied" is exactly at the 99 boundary: currents in `(79, 99]` describe
as "satisfied" and currents in `(99, 100]` as "full". -/
theorem c8_hunger_gauge_ticks_and_boundary (c : ℚ) :
    (((hungerGauge.applyRate 3600 1).applyRate 3600 1).applyRate 3600 1).current = 94 ∧
    (79 < c → c ≤ 99 → describeGauge hungerDescs c = some "satisfied") ∧
    (99 < c → c ≤ 100 → describeGauge hungerDescs c = some "full") := by
  refine ⟨?_, ?_, ?_⟩
  · norm_num [GaugeTrait.applyRate, GaugeTrait.modify, hungerGauge, min_def, max_def]
  · intro h1 h2
    have n1 : ¬ (c ≤ (19 : ℚ)) := by linarith
    have n2 : ¬ (c ≤ (39 : ℚ)) := by linarith
    have n3 : ¬ (c ≤ (59 : ℚ)) := by linarith
    have n4 : ¬ (c ≤ (79 : ℚ)) := by linarith
    simp [describeGauge, hungerDescs, List.find?, n1, n2, n3, n4, h2]
  · intro h1 h2
    have n1 : ¬ (c ≤ (19 : ℚ)) := by linarith
    have n2 : ¬ (c ≤ (39 : ℚ)) := by linarith
    have n3 : ¬ (c ≤ (59 : ℚ)) := by linarith
    have n4 : ¬ (c ≤ (79 : ℚ)) := by linarith
    have n5 : ¬ (c ≤ (99 : ℚ)) := by linarith
    simp [describeGauge, hungerDescs, List.find?, n1, n2, n3, n4, n5, h2]

/-- Witness for `c8_hunger_gauge_ticks_and_boundary` at hunger 94 (after the
three ticks) and at the boundary value 100. -/
theorem c8_hunger_gauge_ticks_and_boundary_witness :
    (((hungerGauge.applyRate 3600 1).applyRate 3600 1).applyRate 3600 1).current = 94 ∧
    describeGauge hungerDescs 94 = some "satisfied" ∧
    describeGauge hungerDescs 100 = some "full" :=
  ⟨(c8_hunger_gauge_ticks_and_boundary 0).1,
   (c8_hunger_gauge_ticks_and_boundary 94).2.1 (by norm_num) (by norm_num),
   (c8_hunger_gauge_ticks_and_boundary 100).2.2 (by norm_num) (by norm_num)⟩

end PolishedWorld
